import Mathlib

/-!
Verification of the `rewrite-lcmgen` IDL front end (files `lcm_tokenize.py`,
`lcmgen2.py`, `main.py`) against its natural-language specification.

The Python source is shallowly embedded: Python `int` is `Int` (arbitrary
precision), `ctypes.c_int64(v).value` is explicit truncation to the signed
64-bit range, Python strings are `String`/`List Char`, `None`-or-value is
`Option`, the tokenizer's mutable `Tokenize` dataclass is an explicit state
record, and the parser's `sys.exit(1)` error paths are an `Except` error
monad.  Loops are modelled with an explicit fuel parameter; running out of
fuel is a distinguished outcome (`none` / `Err.fuel`) that never occurs on
the concrete inputs used in the theorems.
-/

namespace LcmGen

/-! ## Python integer primitives

`hash_update` in `lcmgen2.py` computes `((v << 8) ^ (v >> 55)) + c` on
Python `int`s and then truncates with `c_int64(v).value`.  Python ints are
infinite-precision two's complement, so:

* `v << n` is exact multiplication by `2 ^ n`;
* `v >> n` is the sign-extending (arithmetic) shift, i.e. floor division
  by `2 ^ n`; core `Int.shiftRight` implements exactly this
  (`Int.negSucc m >>> s = Int.negSucc (m >>> s)`);
* `v ^ w` is bitwise xor of the infinite two's-complement expansions;
  Mathlib's `Int.xor` implements exactly this (four constructor cases).
-/

/-- Python `v << n` on `int`: exact multiplication by `2 ^ n`. -/
def pyShiftLeft (v : Int) (n : Nat) : Int := v * 2 ^ n

/-- Python `v >> n` on `int`: arithmetic (sign-extending) right shift,
`Int.shiftRight` from core. -/
def pyShiftRight (v : Int) (n : Nat) : Int := v >>> n

/-- Python `v ^ w` on `int`: two's-complement bitwise xor, `Int.xor`. -/
def pyXor (v w : Int) : Int := Int.xor v w

/-- `ctypes.c_int64(x).value`: truncation of a Python `int` to the signed
64-bit range `[-2^63, 2^63)`, keeping the value mod `2^64`. -/
def toInt64 (x : Int) : Int := (x + 2 ^ 63) % 2 ^ 64 - 2 ^ 63

/-- The unsigned 64-bit bit pattern of a Python `int` (its value mod `2^64`),
as used by `dump_struct`'s `c_uint64(struct.hash).value`. -/
def toNat64 (x : Int) : Nat := (x % 2 ^ 64).toNat

/-! ## The fingerprint (`lcmgen2.py`, `hash_update` / `hash_string_update` /
`hash_structure`) -/

/-- `hash_update` from `lcmgen2.py`:
`v = ((v << 8) ^ (v >> 55)) + c; return c_int64(v).value`. -/
def hash_update (v : Int) (char_ord : Int) : Int :=
  toInt64 (pyXor (pyShiftLeft v 8) (pyShiftRight v 55) + char_ord)

/-- `hash_string_update` from `lcmgen2.py`: mix in the string's length, then
each character's code point, in order. -/
def hash_string_update (v : Int) (s : String) : Int :=
  s.toList.foldl (fun v c => hash_update v (Char.toNat c)) (hash_update v (s.length : Int))

/-! ## The schema model (`lcmgen2.py` dataclasses) -/

/-- `LcmTypename`: fully-qualified name, package, short name. -/
structure LcmTypename where
  lctypename : String
  package : String
  shortname : String
deriving DecidableEq

/-- `DimensionMode`: `CONST = 0`, `VAR = 1` (the numeric `.value` enters the
fingerprint). -/
inductive DimensionMode where
  | CONST
  | VAR
deriving DecidableEq

/-- The Python enum's `.value`. -/
def DimensionMode.value : DimensionMode → Int
  | .CONST => 0
  | .VAR => 1

/-- `Dimension`: one array axis. -/
structure Dimension where
  mode : DimensionMode
  size : String
deriving DecidableEq

/-- `Member`: one struct field. -/
structure Member where
  type : LcmTypename
  membername : String
  dimensions : List Dimension
  comment : Option String
deriving DecidableEq

/-- `Constant`: a struct-scoped named literal. -/
structure Constant where
  typename : String
  membername : String
  val_str : String
  comment : Option String
deriving DecidableEq

/-- `Struct`: a top-level schema entity.  The Python dataclass also carries a
`structs : List[Struct]` field; it is created empty, never appended to and
never read anywhere in the repository (nested structs are rejected by
`parse_member`), and a structure cannot recursively contain a list of itself
in Lean, so that dead field is omitted here. -/
structure Struct where
  structname : LcmTypename
  members : List Member
  constants : List Constant
  lcmfile : String
  hash : Int
  comment : Option String
  file_comment : Option String
deriving DecidableEq

/-- `PRIMITIVE_TYPES` from `lcmgen2.py`. -/
def PRIMITIVE_TYPES : List String :=
  ["int8_t", "int16_t", "int32_t", "int64_t", "byte", "float", "double",
   "string", "boolean"]

/-- `ARRAY_DIMENSION_TYPES` from `lcmgen2.py`. -/
def ARRAY_DIMENSION_TYPES : List String :=
  ["int8_t", "int16_t", "int32_t", "int64_t"]

/-- `CONST_TYPES` from `lcmgen2.py`. -/
def CONST_TYPES : List String :=
  ["int8_t", "int16_t", "int32_t", "int64_t", "float", "double"]

/-- `INT_TYPES` from `lcmgen2.py`: dict from type name to (min, max), with
the values written as in the source. -/
def INT_TYPES : List (String × Int × Int) :=
  [("int8_t", ((-128), (127))),
   ("int16_t", ((-32767 - 1), (32767))),
   ("int32_t", ((-2147483647 - 1), (2147483647))),
   ("int64_t", ((-9223372036854775807 - 1), (9223372036854775807)))]

/-- Python `type in INT_TYPES` / `INT_TYPES[type]`: dict lookup. -/
def int_types_lookup (ty : String) : Option (Int × Int) :=
  (INT_TYPES.find? (fun p => p.1 == ty)).map (·.2)

/-- `int_in_type_bounds` from `lcmgen2.py`.  Python raises `KeyError` for a
type outside the table; every caller first checks membership, so the `none`
branch is unreachable and returns `false`. -/
def int_in_type_bounds (val : Int) (ty : String) : Bool :=
  match int_types_lookup ty with
  | some (lo, hi) => lo ≤ val && val ≤ hi
  | none => false

/-- `is_legal_member_name` from `lcmgen2.py`: first character is a letter or
underscore.  Python `s[0]` raises `IndexError` on an empty string; callers
only pass freshly scanned, non-empty tokens, and the `[]` branch returns
`false`.  `Char.isAlpha` matches Python `str.isalpha` on the ASCII inputs
this front end processes. -/
def is_legal_member_name (s : String) : Bool :=
  match s.toList with
  | [] => false
  | c :: _ => c.isAlpha || c == '_'

/-- `is_array_dimension_type` from `lcmgen2.py`. -/
def is_array_dimension_type (typename : LcmTypename) : Bool :=
  ARRAY_DIMENSION_TYPES.contains typename.lctypename

/-- The per-member step of `hash_structure`'s loop: mix the member name; if
the resolved type name is primitive, mix the type name text; mix the
dimension count; then each dimension's mode value and size text. -/
def hash_member_update (v : Int) (member : Member) : Int :=
  let v := hash_string_update v member.membername
  let v := if PRIMITIVE_TYPES.contains member.type.lctypename then
             hash_string_update v member.type.lctypename
           else v
  let v := hash_update v (member.dimensions.length : Int)
  member.dimensions.foldl
    (fun v dim => hash_string_update (hash_update v dim.mode.value) dim.size) v

/-- `hash_structure` from `lcmgen2.py`: seed `0x12345678`, then the member
loop; the struct's own name and its constants are never touched. -/
def hash_structure (structure_ : Struct) : Int :=
  structure_.members.foldl hash_member_update 0x12345678

/-! ## The fingerprint step as the specification words it (claim C2)

The spec describes the scalar-mixing rule on the 64-bit two's-complement
bit pattern: `v' = ((v << 8) XOR (v >>> 55)) + c` with wraparound past 64
bits, reading `>>> 55` as the *unsigned (logical)* right shift of the 64-bit
value.  `spec_step_logical` below transcribes exactly that, on the unsigned
64-bit representative.  `spec_step_arith` is the same formula with the
*arithmetic* (sign-propagating) 64-bit right shift instead. -/

/-- Modelled from the spec: one scalar-mixing step on the unsigned 64-bit
bit pattern `u`, with `>>> 55` the logical right shift. -/
def spec_step_logical (u c : Nat) : Nat :=
  ((((u <<< 8) % 2 ^ 64) ^^^ (u >>> 55)) + c) % 2 ^ 64

/-- The arithmetic (sign-propagating) right shift of a 64-bit bit pattern:
for `u < 2^63` it is the logical shift; otherwise the vacated high bits are
filled with ones. -/
def sar64 (u : Nat) (n : Nat) : Nat :=
  if u < 2 ^ 63 then u >>> n else u >>> n + (2 ^ 64 - 2 ^ (64 - n))

/-- One scalar-mixing step on the unsigned 64-bit bit pattern `u`, with
`>>> 55` the arithmetic right shift. -/
def spec_step_arith (u c : Nat) : Nat :=
  ((((u <<< 8) % 2 ^ 64) ^^^ sar64 u 55) + c) % 2 ^ 64

/-! ## The tokenizer (`lcm_tokenize.py`)

The mutable `Tokenize` dataclass becomes an explicit state record threaded
through every function; `Optional[str]` fields holding one character or a
falsy value (`None` or `""`) become `Option Char`.  Every Python loop takes
a fuel argument and returns `Option (result × Tokenize)`: the outer `none`
signals only fuel exhaustion or a failed Python `assert` (model artifacts
that never occur on the concrete inputs of the theorems), while Python's
`return None` (end of stream, malformed literal) is the *value* `none`
inside a `some (none, t)` result. -/

/-- `TokenType` from `lcm_tokenize.py`. -/
inductive TokenType where
  | INVALID
  | EOF
  | COMMENT
  | OTHER
deriving DecidableEq

/-- The `Tokenize` dataclass.  `f` is the not-yet-read rest of the input
file; `current_char` / `unget_char` are `Option Char` (`none` for Python's
falsy `""` / `None`). -/
structure Tokenize where
  token : List Char
  token_line : Int
  token_column : Int
  current_char : Option Char
  current_line : Int
  current_column : Int
  unget_char : Option Char
  unget_line : Int
  unget_column : Int
  buffer : List Char
  buffer_line : Int
  buffer_column : Nat
  buffer_len : Nat
  path : String
  f : List Char
  hasnext : Bool
  token_type : TokenType
deriving DecidableEq

/-- `create` from `lcm_tokenize.py`, with the file's contents given directly
(the `path.open` failure branch, which returns `None`, is outside this
model: the input text is supplied). -/
def create (path : String) (contents : String) : Tokenize where
  f := contents.toList
  path := path
  token := []
  token_line := -1
  token_column := -1
  buffer := []
  buffer_column := 0
  buffer_len := 0
  buffer_line := 0
  hasnext := false
  current_char := none
  current_column := 0
  current_line := 0
  unget_char := none
  unget_column := 0
  unget_line := 0
  token_type := .INVALID

/-- Python `TextIO.readline`: the next line up to and including its newline
(or the whole rest when no newline remains), plus the remaining stream; `""`
at end of file. -/
def readline : List Char → List Char × List Char
  | [] => ([], [])
  | c :: rest =>
    if c = '\n' then ([c], rest)
    else
      let (l, r) := readline rest
      (c :: l, r)

/-- The tail of `next_char` (lines 104-110): read `buffer[buffer_column]`
and advance.  The index is in range whenever Python reaches these lines (the
buffer was just refilled with a non-empty line, or `buffer_column <
buffer_len` held); `getD` gives the out-of-range case Python would raise
`IndexError` on an arbitrary value. -/
def next_char_read (t : Tokenize) : Option Char × Tokenize :=
  let c := t.buffer.getD t.buffer_column ' '
  (some c,
   { t with current_char := some c, current_line := t.buffer_line,
            current_column := (t.buffer_column : Int),
            buffer_column := t.buffer_column + 1 })

/-- `next_char` from `lcm_tokenize.py`: pending pushback first; else refill
the line buffer when exhausted (Python stores the new `buffer` *before* the
emptiness check, so at end of file `buffer` becomes `""` while
`buffer_len`/`buffer_line`/`buffer_column` keep their old values). -/
def next_char (t : Tokenize) : Option Char × Tokenize :=
  match t.unget_char with
  | some c =>
    (some c,
     { t with current_char := some c, current_line := t.unget_line,
              current_column := t.unget_column, unget_char := none })
  | none =>
    if t.buffer_column = t.buffer_len then
      let (line, rest) := readline t.f
      if line.isEmpty then
        (none, { t with buffer := line, f := rest })
      else
        next_char_read
          { t with buffer := line, f := rest, buffer_len := line.length,
                   buffer_line := t.buffer_line + 1, buffer_column := 0 }
    else next_char_read t

/-- `unget` from `lcm_tokenize.py`: push back the current character. -/
def unget (t : Tokenize) : Tokenize :=
  { t with unget_char := t.current_char, unget_line := t.current_line,
           unget_column := t.current_column }

/-- `add_char_to_token` from `lcm_tokenize.py`: `t.token += c`. -/
def add_char_to_token (t : Tokenize) (c : Char) : Tokenize :=
  { t with token := t.token ++ [c] }

/-- Python `str.isspace` on the ASCII whitespace characters this front end
processes. -/
def pyIsSpace (c : Char) : Bool :=
  c = ' ' || c = '\t' || c = '\n' || c = '\r' || c = '\x0b' || c = '\x0c'

/-- Python `c and c.isspace()` for `c : Optional[str]`. -/
def optIsSpace : Option Char → Bool
  | some c => pyIsSpace c
  | none => false

/-- `OPERATOR_CHARS` from `lcm_tokenize.py` (the source lists `=` twice). -/
def OPERATOR_CHARS : List Char := "!~<>=&|^%*+=".toList

/-- `SINGLE_CHAR_TOKENS` from `lcm_tokenize.py`. -/
def SINGLE_CHAR_TOKENS : List Char := "();\",:'[]".toList

/-- Python `c in chars` where `c : Optional[str]` may be `None` (false). -/
def optMem (c : Option Char) (chars : List Char) : Bool :=
  match c with
  | some c => chars.contains c
  | none => false

/-- `unescape` from `lcm_tokenize.py` (single-character case; the `None`
overload is `Option.map unescape` at the call site). -/
def unescape (c : Char) : Char :=
  if c = 'n' then '\n' else if c = 'r' then '\r' else if c = 't' then '\t'
  else c

/-- The loop of `flush_line`: `while c and c != "\n": c = next_char(t)`. -/
def flush_line_loop : Nat → Option Char → Tokenize → Option Tokenize
  | 0, _, _ => none
  | fuel + 1, c, t =>
    match c with
    | some ch =>
      if ch ≠ '\n' then
        let (c2, t) := next_char t
        flush_line_loop fuel c2 t
      else some t
    | none => some t

/-- `flush_line` from `lcm_tokenize.py`. -/
def flush_line (fuel : Nat) (t : Tokenize) : Option Tokenize :=
  let (c, t) := next_char t
  flush_line_loop fuel c t

/-- `tokenize_extended_comment`, lines 142-149: consume leading spaces and
tabs, appending them to the token; return the first other character and the
updated `pos`. -/
def ext_comment_ws : Nat → Nat → Tokenize → Option (Option Char × Nat × Tokenize)
  | 0, _, _ => none
  | fuel + 1, pos, t =>
    let (c, t) := next_char t
    match c with
    | some ch =>
      if ch = ' ' || ch = '\t' then
        ext_comment_ws fuel (pos + 1) (add_char_to_token t ch)
      else some (c, pos, t)
    | none => some (c, pos, t)

/-- `tokenize_extended_comment`, lines 152-157: consume leading asterisks,
appending them to the token; return the following character, the updated
`pos` and `got_asterisk`. -/
def ext_comment_stars :
    Nat → Option Char → Nat → Bool → Tokenize → Option (Option Char × Nat × Bool × Tokenize)
  | 0, _, _, _, _ => none
  | fuel + 1, c, pos, got, t =>
    if c = some '*' then
      let t := add_char_to_token t '*'
      let (c2, t) := next_char t
      ext_comment_stars fuel c2 (pos + 1) true t
    else some (c, pos, got, t)

/-- `tokenize_extended_comment`, lines 172-181: the rest of the line is
comment content; a `*` directly followed by `/` finishes the comment (the
`*` stays in the token text but `pos` is decremented back).  Returns the
last character read, the updated `pos`, and `comment_finished`. -/
def ext_comment_content :
    Nat → Option Char → Nat → Tokenize → Option (Option Char × Nat × Bool × Tokenize)
  | 0, _, _, _ => none
  | fuel + 1, c, pos, t =>
    match c with
    | some ch =>
      if ch = '\n' then some (c, pos, false, t)
      else
        let t := add_char_to_token t ch
        let (c2, t) := next_char t
        if ch = '*' && c2 = some '/' then
          some (c2, pos, true, t)
        else ext_comment_content fuel c2 (pos + 1) t
    | none => some (c, pos, false, t)

/-- The `while not comment_finished` loop of `tokenize_extended_comment`.
Per physical line: leading whitespace, then asterisks; if at least one
asterisk was seen the token is truncated back to the line start (dropping
that whitespace and those asterisks); `/` right after the asterisks ends the
comment, a single space right after them is skipped.  At end of line a
newline is appended unless the line contributed nothing; at end of file the
Python code prints a diagnostic and returns `None`.  The `assert c == "\n"`
is modelled as the fuel-style `none` (it cannot fail). -/
def ext_comment_outer : Nat → Nat → Tokenize → Option (Option Nat × Tokenize)
  | 0, _, _ => none
  | fuel + 1, pos, t =>
    let pos_line_start := pos
    match ext_comment_ws fuel pos t with
    | none => none
    | some (c, pos, t) =>
      match ext_comment_stars fuel c pos false t with
      | none => none
      | some (c, pos, got_asterisk, t) =>
        if got_asterisk && c = some '/' then
          let t := { t with token := t.token.take pos_line_start }
          some (some pos_line_start, { t with token_type := .COMMENT })
        else
          let (c, pos, t) :=
            if got_asterisk then
              let t := { t with token := t.token.take pos_line_start }
              let (c, t) := if c = some ' ' then next_char t else (c, t)
              (c, pos_line_start, t)
            else (c, pos, t)
          match ext_comment_content fuel c pos t with
          | none => none
          | some (c, pos, finished, t) =>
            if finished then
              some (some pos, { t with token_type := .COMMENT })
            else
              match c with
              | none => some (none, t)
              | some ch =>
                if ch = '\n' then
                  let (pos, t) :=
                    if pos_line_start ≠ pos then
                      (pos + 1, add_char_to_token t '\n')
                    else (pos, t)
                  ext_comment_outer fuel pos t
                else none

/-- `tokenize_extended_comment` from `lcm_tokenize.py` (the tokenizer has
already consumed `/*`). -/
def tokenize_extended_comment (fuel : Nat) (t : Tokenize) :
    Option (Option Nat × Tokenize) :=
  ext_comment_outer fuel 0 { t with token := [] }

/-- Lines 233-234: `while c and c.isspace(): c = next_char(t)`. -/
def skip_ws_loop : Nat → Option Char → Tokenize → Option (Option Char × Tokenize)
  | 0, _, _ => none
  | fuel + 1, c, t =>
    if optIsSpace c then
      let (c2, t) := next_char t
      skip_ws_loop fuel c2 t
    else some (c, t)

/-- The string-literal loop (lines 274-299): read until an unescaped closing
quote; after a backslash the next character is consumed, unescaped and then
*dropped* (never appended); end of stream fails with `None`. -/
def string_loop : Nat → Bool → Nat → Tokenize → Option (Option Nat × Tokenize)
  | 0, _, _, _ => none
  | fuel + 1, escape_next, pos, t =>
    let (c, t) := next_char t
    match c with
    | none => some (none, t)
    | some ch =>
      if escape_next then
        string_loop fuel false pos t
      else if ch = '"' then
        some (some (pos + 1), add_char_to_token t '"')
      else if ch = '\\' then
        string_loop fuel true pos t
      else
        string_loop fuel false (pos + 1) (add_char_to_token t ch)

/-- The operator run (lines 304-307): `while c in OPERATOR_CHARS`. -/
def operator_loop : Nat → Option Char → Nat → Tokenize → Option (Nat × Tokenize)
  | 0, _, _, _ => none
  | fuel + 1, c, pos, t =>
    match c with
    | some ch =>
      if OPERATOR_CHARS.contains ch then
        let t := add_char_to_token t ch
        let (c2, t) := next_char t
        operator_loop fuel c2 (pos + 1) t
      else some (pos, t)
    | none => some (pos, t)

/-- Lines 330-331: `while c == "/": c = next_char(t)`. -/
def slash_skip_loop : Nat → Option Char → Tokenize → Option (Option Char × Tokenize)
  | 0, _, _ => none
  | fuel + 1, c, t =>
    if c = some '/' then
      let (c2, t) := next_char t
      slash_skip_loop fuel c2 t
    else some (c, t)

/-- Lines 333-334: `while c and c == ' ': c = next_char(t)` (every leading
space is stripped). -/
def space_skip_loop : Nat → Option Char → Tokenize → Option (Option Char × Tokenize)
  | 0, _, _ => none
  | fuel + 1, c, t =>
    if c = some ' ' then
      let (c2, t) := next_char t
      space_skip_loop fuel c2 t
    else some (c, t)

/-- Lines 338-341: capture the rest of the line as the comment text. -/
def line_capture_loop : Nat → Option Char → Nat → Tokenize → Option (Nat × Tokenize)
  | 0, _, _, _ => none
  | fuel + 1, c, pos, t =>
    match c with
    | some ch =>
      if ch ≠ '\n' then
        let t := add_char_to_token t ch
        let (c2, t) := next_char t
        line_capture_loop fuel c2 (pos + 1) t
      else some (pos, t)
    | none => some (pos, t)

/-- The identifier/blob loop (lines 355-367): consume until whitespace; a
single-char token ends the blob after inclusion; a following single-char or
operator character ends it before inclusion (pushed back). -/
def blob_loop : Nat → Option Char → Nat → Tokenize → Option (Nat × Tokenize)
  | 0, _, _, _ => none
  | fuel + 1, c, pos, t =>
    match c with
    | none => some (pos, t)
    | some ch =>
      if pyIsSpace ch then some (pos, t)
      else
        let t := add_char_to_token t ch
        if SINGLE_CHAR_TOKENS.contains ch then some (pos + 1, t)
        else
          let (c2, t) := next_char t
          if optMem c2 SINGLE_CHAR_TOKENS || optMem c2 OPERATOR_CHARS then
            some (pos + 1, unget t)
          else blob_loop fuel c2 (pos + 1) t

/-- The character-literal path of `tokenize_next_internal` (lines 244-262);
the returned `pos` is always 3 (quote, payload, quote). -/
def char_literal_path (t : Tokenize) : Option (Option Nat × Tokenize) :=
  let t := add_char_to_token t '\''
  let (c1, t) := next_char t
  let (c1, t) :=
    if c1 = some '\\' then
      let (c2, t) := next_char t
      (c2.map unescape, t)
    else (c1, t)
  match c1 with
  | none => some (none, t)
  | some p =>
    let t := add_char_to_token t p
    let (c3, t) := next_char t
    if c3 = some '\'' then
      some (some 3, { add_char_to_token t '\'' with token_type := .OTHER })
    else some (none, t)

/-- The line-comment path of `tokenize_next_internal` (lines 325-344): strip
further `/` characters and then all leading spaces, then capture the rest of
the line; the terminating character is pushed back. -/
def line_comment_path (fuel : Nat) (t : Tokenize) : Option (Option Nat × Tokenize) :=
  let t := { t with token_type := .COMMENT }
  let (c2, t) := next_char t
  match slash_skip_loop fuel c2 t with
  | none => none
  | some (c3, t) =>
    match space_skip_loop fuel c3 t with
    | none => none
    | some (c4, t) =>
      let t := { t with token := [] }
      match line_capture_loop fuel c4 0 t with
      | none => none
      | some (pos, t) => some (some pos, unget t)

/-- The comment/operator dispatch after a leading `/` (lines 312-349). -/
def slash_path (fuel : Nat) (t : Tokenize) : Option (Option Nat × Tokenize) :=
  let t := add_char_to_token t '/'
  let (c1, t) := next_char t
  match c1 with
  | none => some (some 1, { t with token_type := .OTHER })
  | some c1c =>
    if c1c = '*' then tokenize_extended_comment fuel t
    else if c1c = '/' then line_comment_path fuel t
    else some (some 1, unget { t with token_type := .OTHER })

/-- `tokenize_next_internal` from `lcm_tokenize.py`. -/
def tokenize_next_internal (fuel : Nat) (t : Tokenize) :
    Option (Option Nat × Tokenize) :=
  let t := { t with token_type := .INVALID, token := [] }
  let (c0, t) := next_char t
  match skip_ws_loop fuel c0 t with
  | none => none
  | some (c, t) =>
    match c with
    | none => some (none, { t with token_type := .INVALID })
    | some ch =>
      let t := { t with token_line := t.current_line,
                        token_column := t.current_column }
      if ch = '\'' then char_literal_path t
      else if ch = '"' then
        string_loop fuel false 1 (add_char_to_token t '"')
      else if OPERATOR_CHARS.contains ch then
        match operator_loop fuel (some ch) 0 { t with token_type := .OTHER } with
        | none => none
        | some (pos, t) => some (some pos, unget t)
      else if ch = '/' then slash_path fuel t
      else
        match blob_loop fuel (some ch) 0 { t with token_type := .OTHER } with
        | none => none
        | some (pos, t) => some (some pos, t)

/-- `tokenize_next` from `lcm_tokenize.py`: consume a pending lookahead (the
Python code then returns the int `0`) or scan the next token. -/
def tokenize_next (fuel : Nat) (t : Tokenize) : Option (Option Nat × Tokenize) :=
  if t.hasnext then some (some 0, { t with hasnext := false })
  else tokenize_next_internal fuel t

/-- `tokenize_peek` from `lcm_tokenize.py`. -/
def tokenize_peek (fuel : Nat) (t : Tokenize) : Option (Option Nat × Tokenize) :=
  if t.hasnext then some (some 0, t)
  else
    match tokenize_next fuel t with
    | none => none
    | some (res, t') =>
      if res.isSome then some (res, { t' with hasnext := true })
      else some (res, t')

/-! ## The parser (`lcmgen2.py`)

`sys.exit(1)` error paths (`parse_error`, `semantic_error`) become `Except`
errors carrying the Python message text; `semantic_warning` only prints and
is a no-op here.  The mutable `Lcmgen`/`ParseCache` objects and the
tokenizer state are threaded explicitly; `Struct` objects under construction
are passed and returned.  `Err.fuel` marks fuel exhaustion and
`Err.assertFailed` a failed Python `assert` — both model artifacts. -/

/-- `ParseCache` from `lcmgen2.py`. -/
structure ParseCache where
  package : String
  comment_doc : Option String
  file_comment : Option String
deriving DecidableEq

/-- `Lcmgen` from `lcmgen2.py`.  `gopt` is a string-keyed dict; the two keys
the core reads are modelled as fields: `gopt_package_pfx` is
`gopt.get("package_prefix", "")` and `gopt_tokenize` is
`gopt.get("tokenize")` (`main.py` leaves both falsy unless the
corresponding command-line options are given). -/
structure Lcmgen where
  parse_cache : ParseCache
  gopt_package_pfx : String
  gopt_tokenize : Bool
  structs : List Struct
deriving DecidableEq

/-- `create_lcmgen` from `lcmgen2.py` (with `main.py`'s default options). -/
def create_lcmgen : Lcmgen where
  parse_cache := { package := "", comment_doc := none, file_comment := none }
  gopt_package_pfx := ""
  gopt_tokenize := false
  structs := []

/-- How a parse run ends abnormally: the two `sys.exit(1)` diagnostics of
`lcmgen2.py`, plus the model artifacts. -/
inductive Err where
  | parseError (msg : String)
  | semanticError (msg : String)
  | fuel
  | assertFailed
deriving DecidableEq

/-- The combined mutable state a parse function sees: the `Lcmgen` object
and the tokenizer. -/
structure PState where
  gen : Lcmgen
  t : Tokenize
deriving DecidableEq

/-- Lift a tokenizer call into the parser: fuel exhaustion propagates. -/
def liftTok (r : Option (α × Tokenize)) (s : PState) : Except Err (α × PState) :=
  match r with
  | none => .error .fuel
  | some (a, t') => .ok (a, { s with t := t' })

/-- `lcmgen.parse_cache.comment_doc = v`. -/
def setCommentDoc (s : PState) (v : Option String) : PState :=
  { s with gen := { s.gen with parse_cache := { s.gen.parse_cache with comment_doc := v } } }

/-- `lcmgen.parse_cache.file_comment = v`. -/
def setFileComment (s : PState) (v : Option String) : PState :=
  { s with gen := { s.gen with parse_cache := { s.gen.parse_cache with file_comment := v } } }

/-- `lcmgen.parse_cache.package = v`. -/
def setPackage (s : PState) (v : String) : PState :=
  { s with gen := { s.gen with parse_cache := { s.gen.parse_cache with package := v } } }

/-- `str.rfind(".")` followed by the split in `create_typename`: the parts
before and after the *last* dot, or `none` when there is no dot. -/
def rfind_dot : List Char → Option (List Char × List Char)
  | [] => none
  | c :: rest =>
    match rfind_dot rest with
    | some (b, a) => some (c :: b, a)
    | none => if c = '.' then some ([], rest) else none

/-- `create_typename` from `lcmgen2.py`: resolve a raw type name against the
last `package` directive and the `package_prefix` option. -/
def create_typename (gen : Lcmgen) (raw_typename : String) : LcmTypename :=
  let (package, shortname, typename) :=
    match rfind_dot raw_typename.toList with
    | none =>
      let shortname := raw_typename
      if PRIMITIVE_TYPES.contains shortname then ("", shortname, raw_typename)
      else
        let package := gen.parse_cache.package
        if package ≠ "" then (package, shortname, package ++ "." ++ shortname)
        else (package, shortname, shortname)
    | some (before, after) => (before.asString, after.asString, raw_typename)
  let pfx := gen.gopt_package_pfx
  if pfx ≠ "" && !(PRIMITIVE_TYPES.contains shortname) then
    let package2 := if package ≠ "" then pfx ++ "." ++ package else pfx
    ⟨package2 ++ "." ++ shortname, package2, shortname⟩
  else ⟨typename, package, shortname⟩

/-- `create_struct` from `lcmgen2.py`. -/
def create_struct (gen : Lcmgen) (src_path : String) (structname : String) : Struct where
  comment := none
  constants := []
  file_comment := none
  members := []
  lcmfile := src_path
  structname := create_typename gen structname
  hash := 0

/-- `find_member` from `lcmgen2.py`: first member with the given name. -/
def find_member (stru : Struct) (name : String) : Option Member :=
  stru.members.find? (fun it => it.membername == name)

/-- `find_const` from `lcmgen2.py`: first constant with the given name. -/
def find_const (stru : Struct) (name : String) : Option Constant :=
  stru.constants.find? (fun it => it.membername == name)

/-- `find_struct` from `lcmgen2.py`: first recorded struct with the given
resolved package and short name. -/
def find_struct (gen : Lcmgen) (package name : String) : Option Struct :=
  gen.structs.find? (fun st =>
    st.structname.package == package && st.structname.shortname == name)

/-- Python `str.isdigit` (ASCII): non-empty and all digits. -/
def pyIsDigitStr (s : String) : Bool :=
  !s.toList.isEmpty && s.toList.all Char.isDigit

/-- The value of one digit in the given base, if valid: `0`-`9` (codes
48-57), `a`-`f` (97-102) and `A`-`F` (65-70). -/
def digitVal (base : Nat) (c : Char) : Option Nat :=
  let n := c.toNat
  let v :=
    if 48 ≤ n && n ≤ 57 then some (n - 48)
    else if 97 ≤ n && n ≤ 102 then some (n - 87)
    else if 65 ≤ n && n ≤ 70 then some (n - 55)
    else none
  match v with
  | some v => if v < base then some v else none
  | none => none

/-- Digits-to-value in the given base; `none` when empty or a digit is
invalid. -/
def digitsVal (base : Nat) (cs : List Char) : Option Nat :=
  match cs with
  | [] => none
  | _ =>
    cs.foldl
      (fun acc c =>
        match acc, digitVal base c with
        | some acc, some v => some (acc * base + v)
        | _, _ => none)
      (some 0)

/-- Python `int(s, base=0)`: optional sign, then a `0x`/`0o`/`0b` radix
literal, a run of zeros, or a decimal literal without a leading zero;
anything else raises `ValueError` (`none`).  Underscore digit grouping,
which Python would accept and no `.lcm` token uses, is not modelled. -/
def pyIntBase0 (s : String) : Option Int :=
  let cs := s.toList
  let (sign, rest) : Int × List Char :=
    match cs with
    | '+' :: r => (1, r)
    | '-' :: r => (-1, r)
    | r => (1, r)
  let mag : Option Nat :=
    match rest with
    | [] => none
    | '0' :: r2 =>
      match r2 with
      | [] => some 0
      | c :: r3 =>
        if c = 'x' || c = 'X' then digitsVal 16 r3
        else if c = 'o' || c = 'O' then digitsVal 8 r3
        else if c = 'b' || c = 'B' then digitsVal 2 r3
        else if (c :: r3).all (· = '0') then some 0
        else none
    | ds => if ds.all Char.isDigit then digitsVal 10 ds else none
  mag.map (fun m => sign * (m : Int))

/-- The mantissa part of a Python float literal: `d+`, `d+.d*` or `d*.d+`. -/
def floatMantissaValid (cs : List Char) : Bool :=
  match cs.splitOn '.' with
  | [whole] => !whole.isEmpty && whole.all Char.isDigit
  | [whole, frac] =>
    (!whole.isEmpty || !frac.isEmpty) &&
      whole.all Char.isDigit && frac.all Char.isDigit
  | _ => false

/-- Python `float(s)` accepting the literal (`ValueError` ⇔ `false`):
optional sign, then `inf`/`infinity`/`nan` (any case) or a decimal mantissa
with an optional exponent.  Underscore grouping is not modelled. -/
def pyFloatValid (s : String) : Bool :=
  let cs :=
    match s.toList with
    | '+' :: r => r
    | '-' :: r => r
    | r => r
  let lower := cs.map Char.toLower
  if lower = "inf".toList || lower = "infinity".toList || lower = "nan".toList then
    true
  else
    match (lower.splitOn 'e') with
    | [mant] => floatMantissaValid mant
    | [mant, ex] =>
      let ex :=
        match ex with
        | '+' :: r => r
        | '-' :: r => r
        | r => r
      floatMantissaValid mant && !ex.isEmpty && ex.all Char.isDigit
    | _ => false

/-- The keywords of `lcmgen2.py`. -/
def KW_STRUCT : String := "struct"

/-- `KW_PACKAGE` from `lcmgen2.py`. -/
def KW_PACKAGE : String := "package"

/-- `KW_CONST` from `lcmgen2.py`. -/
def KW_CONST : String := "const"

/-- `KW_ENUM` from `lcmgen2.py` ("Invalid keyword like goto in Java"). -/
def KW_ENUM : String := "enum"

/-- The loop of `parse_try_consume_comment`: `while tokenize_peek(t) is not
None and t.token_type == COMMENT: tokenize_next(t)`, appending each comment
(newline-joined) to `comment_doc` when `store_comment_doc`. -/
def ptcc_loop : Nat → Bool → PState → Except Err PState
  | 0, _, _ => .error .fuel
  | fuel + 1, store, s => do
    let (res, s) ← liftTok (tokenize_peek fuel s.t) s
    if res.isSome && s.t.token_type == TokenType.COMMENT then do
      let (_, s) ← liftTok (tokenize_next fuel s.t) s
      let s :=
        if store then
          match s.gen.parse_cache.comment_doc with
          | none => setCommentDoc s (some s.t.token.asString)
          | some old => setCommentDoc s (some (old ++ "\n" ++ s.t.token.asString))
        else s
      ptcc_loop fuel store s
    else pure s

/-- `parse_try_consume_comment` from `lcmgen2.py`.  With
`store_comment_doc` the previous pending comment is discarded first. -/
def parse_try_consume_comment (fuel : Nat) (store : Bool) (s : PState) :
    Except Err PState :=
  let s := if store then setCommentDoc s none else s
  ptcc_loop fuel store s

/-- `parse_try_consume` from `lcmgen2.py`: if the next non-comment token is
`token`, consume it and return `true`. -/
def parse_try_consume (fuel : Nat) (token : String) (s : PState) :
    Except Err (Bool × PState) := do
  let s ← parse_try_consume_comment fuel false s
  let (res, s) ← liftTok (tokenize_peek fuel s.t) s
  if res = none then
    .error (.parseError ("End of file while looking for " ++ token ++ "."))
  else
    let get_next := s.t.token_type ≠ TokenType.COMMENT ∧ s.t.token = token.toList
    if get_next then do
      let (_, s) ← liftTok (tokenize_next fuel s.t) s
      pure (true, s)
    else pure (false, s)

/-- The comment-skipping loop of `parse_require`:
`while t.token_type == COMMENT: res = tokenize_next(t)`. -/
def pr_comment_loop : Nat → Option Nat → PState → Except Err (Option Nat × PState)
  | 0, _, _ => .error .fuel
  | fuel + 1, res, s =>
    if s.t.token_type = TokenType.COMMENT then do
      let (res2, s) ← liftTok (tokenize_next fuel s.t) s
      pr_comment_loop fuel res2 s
    else pure (res, s)

/-- `parse_require` from `lcmgen2.py`: the next non-comment token must be
`token`, else a parse error. -/
def parse_require (fuel : Nat) (token : String) (s : PState) :
    Except Err PState := do
  let s ← parse_try_consume_comment fuel false s
  let (res, s) ← liftTok (tokenize_next fuel s.t) s
  let (res, s) ← pr_comment_loop fuel res s
  if res = none ∨ s.t.token ≠ token.toList then
    .error (.parseError ("Expected token: " ++ token))
  else pure s

/-- `tokenize_next_or_fail` from `lcmgen2.py`. -/
def tokenize_next_or_fail (fuel : Nat) (description : String) (s : PState) :
    Except Err PState := do
  let (res, s) ← liftTok (tokenize_next fuel s.t) s
  if res = none then
    .error (.parseError ("End of file reached, expected: " ++ description ++ "."))
  else pure s

/-- The closure `another_constant` inside `parse_const`: one
`name = value` item, validated and appended to the struct's constants. -/
def another_constant (fuel : Nat) (typename : String) (stru : Struct)
    (s : PState) : Except Err (Struct × PState) := do
  let s ← parse_try_consume_comment fuel false s
  let s ← tokenize_next_or_fail fuel "name identifier" s
  let membername := s.t.token.asString
  if ¬ is_legal_member_name membername then
    .error (.parseError "Invalid member name. Name must start with [a-zA-Z_].")
  else if (find_const stru membername).isSome ∨ (find_member stru membername).isSome then
    .error (.semanticError ("Duplicate member name '" ++ membername))
  else do
    let s ← parse_require fuel "=" s
    let s ← parse_try_consume_comment fuel false s
    let s ← tokenize_next_or_fail fuel "constant value" s
    let comment := s.gen.parse_cache.comment_doc
    let s := setCommentDoc s none
    let valstr := s.t.token.asString
    let check : Except Err Unit :=
      if (int_types_lookup typename).isSome then
        match pyIntBase0 valstr with
        | none => .error (.parseError "Expected integer value")
        | some intval =>
          if ¬ int_in_type_bounds intval typename then
            .error (.semanticError ("Integer value out of bounds for " ++ typename ++ "."))
          else pure ()
      else if typename = "float" ∨ typename = "double" then
        if ¬ pyFloatValid valstr then
          .error (.parseError "Expected floating point value")
        else pure ()
      else .error .assertFailed
    match check with
    | .error e => .error e
    | .ok _ =>
      let const : Constant :=
        { typename := typename, membername := membername, val_str := valstr,
          comment := comment }
      pure ({ stru with constants := stru.constants ++ [const] }, s)

/-- The `while parse_try_consume(t, ",")` loop of `parse_const`. -/
def pc_comma_loop : Nat → String → Struct → PState → Except Err (Struct × PState)
  | 0, _, _, _ => .error .fuel
  | fuel + 1, typename, stru, s => do
    let (more, s) ← parse_try_consume fuel "," s
    if more then do
      let (stru, s) ← another_constant fuel typename stru s
      pc_comma_loop fuel typename stru s
    else pure (stru, s)

/-- `parse_const` from `lcmgen2.py`. -/
def parse_const (fuel : Nat) (stru : Struct) (s : PState) :
    Except Err (Struct × PState) := do
  let s ← parse_try_consume_comment fuel false s
  let s ← tokenize_next_or_fail fuel "type identifier" s
  if ¬ CONST_TYPES.contains s.t.token.asString then
    .error (.parseError "Invalid type for const")
  else do
    let typename := s.t.token.asString
    let (stru, s) ← another_constant fuel typename stru s
    let (stru, s) ← pc_comma_loop fuel typename stru s
    let s ← parse_require fuel ";" s
    pure (stru, s)

/-- `member.dimensions.append(dim)` in `parse_member`: the member being
declared was appended to `structure.members` just before the dimension loop,
so the Python object mutation lands on the *last* element of that list. -/
def update_last_member : List Member → Dimension → List Member
  | [], _ => []
  | [m], d => [{ m with dimensions := m.dimensions ++ [d] }]
  | m :: rest, d => m :: update_last_member rest d

/-- The `while parse_try_consume(t, "[")` dimension loop of `parse_member`:
resolve each bracketed size against the struct parsed *so far* (constants in
`Const` mode, previously declared scalar integer members in `Var` mode,
positive decimal literals in `Const` mode) and append the dimension to the
member under declaration. -/
def pm_dims_loop : Nat → Struct → PState → Except Err (Struct × PState)
  | 0, _, _ => .error .fuel
  | fuel + 1, stru, s => do
    let (more, s) ← parse_try_consume fuel "[" s
    if ¬ more then pure (stru, s)
    else do
      let s ← parse_try_consume_comment fuel false s
      let s ← tokenize_next_or_fail fuel "array size" s
      let size_arg := s.t.token.asString
      if size_arg = "]" then
        .error (.semanticError "Array size must be provided.")
      else
        let dim : Except Err (DimensionMode × String) :=
          if pyIsDigitStr size_arg then
            match digitsVal 10 size_arg.toList with
            | none => .error .assertFailed
            | some intval =>
              if (intval : Int) ≤ 0 then
                .error (.semanticError "Constant array size must be > 0")
              else pure (.CONST, size_arg)
          else if ¬ is_legal_member_name size_arg then
            .error (.semanticError "Array size variable must have a valid name.")
          else
            match find_const stru size_arg with
            | some dim_const =>
              if ¬ CONST_TYPES.contains dim_const.typename then
                .error (.semanticError
                  ("Array dimension '" ++ size_arg ++ "' must be an integer type."))
              else pure (.CONST, dim_const.val_str)
            | none =>
              match find_member stru size_arg with
              | none =>
                .error (.semanticError
                  ("Unknown array size argument '" ++ size_arg ++
                   "'.\nSize arguments must be declared before the array."))
              | some dim_var =>
                if dim_var.dimensions.length ≠ 0 ∨ ¬ is_array_dimension_type dim_var.type then
                  .error (.semanticError
                    ("Array dimension '" ++ size_arg ++ "' must be a scalar integer type."))
                else pure (.VAR, size_arg)
        match dim with
        | .error e => .error e
        | .ok (dim_mode, size) => do
          let s ← parse_require fuel "]" s
          let stru :=
            { stru with members := update_last_member stru.members ⟨dim_mode, size⟩ }
          pm_dims_loop fuel stru s

/-- The do-while-comma member loop of `parse_member`: read a name, check it,
append the member (with the pending comment attached), parse its
dimensions, repeat after a comma. -/
def pm_member_loop : Nat → LcmTypename → Struct → PState → Except Err (Struct × PState)
  | 0, _, _, _ => .error .fuel
  | fuel + 1, typename, stru, s => do
    let s ← parse_try_consume_comment fuel false s
    let s ← tokenize_next_or_fail fuel "name identifier" s
    let membername := s.t.token.asString
    if ¬ is_legal_member_name membername then
      .error (.parseError "Invalid member name. Name must start with [a-zA-Z_].")
    else if (find_const stru membername).isSome ∨ (find_member stru membername).isSome then
      .error (.semanticError ("Duplicate member name '" ++ membername))
    else do
      let comment := s.gen.parse_cache.comment_doc
      let s := setCommentDoc s none
      let member : Member :=
        { type := typename, membername := membername, comment := comment,
          dimensions := [] }
      let stru := { stru with members := stru.members ++ [member] }
      let (stru, s) ← pm_dims_loop fuel stru s
      let (more, s) ← parse_try_consume fuel "," s
      if more then pm_member_loop fuel typename stru s
      else pure (stru, s)

/-- `parse_member` from `lcmgen2.py`: reject nested `struct`/`enum`,
delegate `const`, else read a type and one or more member declarations (the
`int` warning only prints). -/
def parse_member (fuel : Nat) (stru : Struct) (s : PState) :
    Except Err (Struct × PState) := do
  let (isStruct, s) ← parse_try_consume fuel KW_STRUCT s
  if isStruct then .error (.parseError "Recursive structs are not supported.")
  else do
    let (isEnum, s) ← parse_try_consume fuel KW_ENUM s
    if isEnum then .error (.parseError "LCM enums are no longer supported.")
    else do
      let (isConst, s) ← parse_try_consume fuel KW_CONST s
      if isConst then parse_const fuel stru s
      else do
        let s ← parse_try_consume_comment fuel false s
        let s ← tokenize_next_or_fail fuel "type identifier" s
        if ¬ is_legal_member_name s.t.token.asString then
          .error (.parseError "Invalid type name.")
        else do
          let typename := create_typename s.gen s.t.token.asString
          let (stru, s) ← pm_member_loop fuel typename stru s
          let s ← parse_require fuel ";" s
          pure (stru, s)

/-- The member loop of `parse_struct`: consume comments (saving them for the
next member), stop at `}`, else parse one member/const declaration. -/
def ps_member_loop : Nat → Struct → PState → Except Err (Struct × PState)
  | 0, _, _ => .error .fuel
  | fuel + 1, stru, s => do
    let s ← parse_try_consume_comment fuel true s
    let (closed, s) ← parse_try_consume fuel "\x7d" s
    if closed then pure (stru, s)
    else do
      let (stru, s) ← parse_member fuel stru s
      ps_member_loop fuel stru s

/-- `parse_struct` from `lcmgen2.py` (the `struct` keyword is already
consumed): read the name, attach the pending file and doc comments (both
swaps leave the cache slots empty), parse the body, then compute and store
the fingerprint. -/
def parse_struct (fuel : Nat) (lcmfile : String) (s : PState) :
    Except Err (Struct × PState) := do
  let s ← parse_try_consume_comment fuel false s
  let s ← tokenize_next_or_fail fuel "struct name" s
  let name := s.t.token.asString
  let stru := create_struct s.gen lcmfile name
  let stru := { stru with file_comment := s.gen.parse_cache.file_comment }
  let s := setFileComment s none
  let stru := { stru with comment := s.gen.parse_cache.comment_doc }
  let s := setCommentDoc s none
  let s ← parse_require fuel "\x7b" s
  let (stru, s) ← ps_member_loop fuel stru s
  pure ({ stru with hash := hash_structure stru }, s)

/-- `parse_entity` from `lcmgen2.py`: one top-level construct.  `False` is
returned at end of stream, for a duplicate struct (after printing both
files) and for a top-level `enum`; a duplicate struct is *not* appended to
`lcmgen.structs`. -/
def parse_entity (fuel : Nat) (lcmfile : String) (s : PState) :
    Except Err (Bool × PState) := do
  let s ← parse_try_consume_comment fuel true s
  let (res, s) ← liftTok (tokenize_next fuel s.t) s
  if res = none then pure (false, s)
  else if s.t.token = KW_PACKAGE.toList then do
    let s := setFileComment s s.gen.parse_cache.comment_doc
    let s := setCommentDoc s none
    let s ← parse_try_consume_comment fuel false s
    let s ← tokenize_next_or_fail fuel "package name" s
    let s := setPackage s s.t.token.asString
    let s ← parse_require fuel ";" s
    pure (true, s)
  else if s.t.token = KW_STRUCT.toList then do
    let (stru, s) ← parse_struct fuel lcmfile s
    match find_struct s.gen stru.structname.package stru.structname.shortname with
    | some _ => pure (false, s)
    | none =>
      let s := { s with gen := { s.gen with structs := s.gen.structs ++ [stru] } }
      pure (true, s)
  else if s.t.token = KW_ENUM.toList then pure (false, s)
  else .error (.parseError "Missing struct token.")

/-- The token-dump loop of `handle_file`'s `--tokenize` branch (the printing
itself is outside the model). -/
def hf_tokenize_loop : Nat → Tokenize → Option Tokenize
  | 0, _ => none
  | fuel + 1, t =>
    match tokenize_next fuel t with
    | none => none
    | some (res, t) => if res.isSome then hf_tokenize_loop fuel t else some t

/-- The entity loop of `handle_file`:
`res = parse_entity(...); while res: res = parse_entity(...)`. -/
def hf_entity_loop : Nat → String → PState → Except Err PState
  | 0, _, _ => .error .fuel
  | fuel + 1, path, s => do
    let (res, s) ← parse_entity fuel path s
    if res then hf_entity_loop fuel path s
    else pure s

/-- `handle_file` from `lcmgen2.py`, for one input file whose contents are
given (the unopenable-file branch is outside the model).  Note the Python
function ends in an unconditional `return True` — marked in the source with
`XXX The condition in the C code is a bit unclear` — so even a run in which
`parse_entity` reported a duplicate struct and returned `False` yields
`True`. -/
def handle_file (fuel : Nat) (path contents : String) (gen : Lcmgen) :
    Except Err (Bool × Lcmgen) :=
  let t := create path contents
  if gen.gopt_tokenize then
    match hf_tokenize_loop fuel t with
    | none => .error .fuel
    | some _ => .ok (true, gen)
  else
    match hf_entity_loop fuel path ⟨gen, t⟩ with
    | .error e => .error e
    | .ok s => .ok (true, s.gen)

/-! ## Concrete fixtures and observation helpers for the claims -/

/-- `int32_t` as `create_typename` resolves it (primitive, no package). -/
def tn_int32 : LcmTypename := ⟨"int32_t", "", "int32_t"⟩

/-- `double` as `create_typename` resolves it. -/
def tn_double : LcmTypename := ⟨"double", "", "double"⟩

/-- A compound (struct-typed) member type: not in `PRIMITIVE_TYPES`. -/
def tn_pose : LcmTypename := ⟨"geometry.pose_t", "geometry", "pose_t"⟩

/-- The same referenced struct type under a new name. -/
def tn_pose_renamed : LcmTypename := ⟨"geometry.pose2_t", "geometry", "pose2_t"⟩

/-- A scalar `int32_t n;` member. -/
def mem_n : Member := ⟨tn_int32, "n", [], none⟩

/-- The same member renamed to `m`. -/
def mem_m : Member := ⟨tn_int32, "m", [], none⟩

/-- A `double data[n];` member: one `Var`-mode dimension sized by `n`. -/
def mem_data : Member := ⟨tn_double, "data", [⟨.VAR, "n"⟩], none⟩

/-- A compound-typed member `geometry.pose_t child;`. -/
def mem_child : Member := ⟨tn_pose, "child", [], none⟩

/-- The same member after the referenced struct type was renamed. -/
def mem_child_renamed : Member := ⟨tn_pose_renamed, "child", [], none⟩

/-- A struct fixture with the given name, members and constants (the other
fields never enter `hash_structure`). -/
def fixture_struct (name : String) (ms : List Member) (cs : List Constant) :
    Struct :=
  ⟨⟨name, "", name⟩, ms, cs, "ex.lcm", 0, none, none⟩

/-- The tokenizer state reached after `tokenize_next` scans the token `+`
from the one-character input file `+` (no trailing newline): the stream is
exhausted, yet the final `unget` of the operator run pushed the stale
`current_char` — the `+` itself — back, so the state reproduces itself. -/
def plus_fix_state : Tokenize where
  token := ['+']
  token_line := 1
  token_column := 0
  current_char := some '+'
  current_line := 1
  current_column := 0
  unget_char := some '+'
  unget_line := 1
  unget_column := 0
  buffer := []
  buffer_line := 1
  buffer_column := 1
  buffer_len := 1
  path := "in.lcm"
  f := []
  hasnext := false
  token_type := .OTHER

/-- What the parser claims observe of a finished run: the success flag and,
per recorded struct, its qualified name, its members (resolved type name,
member name, dimension modes and size texts) and its constants (type, name,
value text). -/
def parse_observation (r : Except Err (Bool × Lcmgen)) :
    Except Err (Bool × List (String ×
      List (String × String × List (DimensionMode × String)) ×
      List (String × String × String))) :=
  r.map (fun (b, gen) =>
    (b, gen.structs.map (fun st =>
      (st.structname.lctypename,
       st.members.map (fun m =>
         (m.type.lctypename, m.membername,
          m.dimensions.map (fun d => (d.mode, d.size)))),
       st.constants.map (fun c => (c.typename, c.membername, c.val_str))))))

/-- The input file declaring `a_t`, used twice for the duplicate-struct run
of claim C3. -/
def dup_contents : String := "struct a_t { int8_t x; }\n"

/-- The two-file duplicate run of claim C3: `handle_file` on `one.lcm` and
then on `two.lcm`, both holding `dup_contents`, sharing one `Lcmgen` as
`main.py` does; observed are both return values, how many structs were
recorded, and which file each recorded struct came from. -/
def dup_run : Except Err (Bool × Bool × Nat × List String) :=
  match handle_file 200 "one.lcm" dup_contents create_lcmgen with
  | .error e => .error e
  | .ok (b1, gen1) =>
    match handle_file 200 "two.lcm" dup_contents gen1 with
    | .error e => .error e
    | .ok (b2, gen2) =>
      .ok (b1, b2, gen2.structs.length, gen2.structs.map (fun st => st.lcmfile))

/-! ## Bit-level lemmas connecting the Python arithmetic to 64-bit bit
patterns (for claim C2) -/

theorem testBit_mul256_add255 (w i : Nat) :
    Nat.testBit (w * 2 ^ 8 + 255) i = (decide (i < 8) || Nat.testBit w (i - 8)) := by
  match i with
  | 0 | 1 | 2 | 3 | 4 | 5 | 6 | 7 =>
    simp only [Nat.testBit_to_div_mod]
    norm_num
    omega
  | i + 8 =>
    have h : (w * 256 + 255) / 2 ^ (i + 8) = w / 2 ^ i := by
      rw [pow_add, Nat.mul_comm (2 ^ i) (2 ^ 8), ← Nat.div_div_eq_div_mul]
      congr 1
      omega
    have h2 : ¬ (i + 8 < 8) := by omega
    simp [Nat.testBit_to_div_mod, h, h2]

theorem xor_mod_two_pow (x y n : Nat) :
    (x ^^^ y) % 2 ^ n = x % 2 ^ n ^^^ y % 2 ^ n := by
  apply Nat.eq_of_testBit_eq
  intro i
  simp only [Nat.testBit_mod_two_pow, Nat.testBit_xor]
  cases h : decide (i < n) <;> simp

theorem toNat64_ofNat (n : Nat) : toNat64 (Int.ofNat n) = n % 2 ^ 64 := by
  unfold toNat64
  norm_cast

theorem toNat64_negSucc (w : Nat) (hw : w < 2 ^ 63) :
    toNat64 (Int.negSucc w) = 2 ^ 64 - 1 - w := by
  unfold toNat64
  rw [Int.negSucc_eq]
  omega

theorem key_neg (w : Nat) (hw : w < 2 ^ 63) :
    ((w * 2 ^ 8 + 255) ^^^ w >>> 55) % 2 ^ 64
      = ((2 ^ 64 - 1 - w) <<< 8) % 2 ^ 64 ^^^ (2 ^ 64 - (w >>> 55 + 1)) := by
  apply Nat.eq_of_testBit_eq
  intro i
  have hw64 : w < 2 ^ 64 := by omega
  have hs64 : w >>> 55 < 2 ^ 64 := by
    rw [Nat.shiftRight_eq_div_pow]
    omega
  have e1 : 2 ^ 64 - 1 - w = 2 ^ 64 - (w + 1) := by omega
  simp only [Nat.testBit_mod_two_pow, Nat.testBit_xor, e1, Nat.testBit_shiftLeft,
    Nat.testBit_shiftRight, testBit_mul256_add255,
    Nat.testBit_two_pow_sub_succ hw64, Nat.testBit_two_pow_sub_succ hs64]
  by_cases h64 : i < 64
  · by_cases h8 : i < 8
    · have h8' : ¬ (8 ≤ i) := by omega
      simp [h64, h8, h8']
    · have h8' : 8 ≤ i := by omega
      have h3 : i - 8 < 64 := by omega
      simp [h64, h8, h8', h3]
  · simp [h64]

theorem toNat64_toInt64 (x : Int) : toNat64 (toInt64 x) = toNat64 x := by
  unfold toNat64 toInt64
  omega

theorem toNat64_add_of_nonneg (x c : Int) (hc : 0 ≤ c) :
    toNat64 (x + c) = (toNat64 x + c.toNat) % 2 ^ 64 := by
  unfold toNat64
  omega

/-- C2 (amended): each scalar-mixing step, starting from any signed 64-bit
state `v` and any non-negative mix-in value `c`, computes
`((v << 8) XOR (v >>> 55)) + c` in 64-bit two's-complement arithmetic with
wraparound — where `>>> 55` is the *arithmetic* (sign-propagating) right
shift of the 64-bit value, not the logical one the claim states: the
implementation's `hash_update` returns exactly the arithmetic-shift value
(compared here on the 64-bit bit patterns). -/
theorem c2_hash_update_is_arithmetic_shift_step (v c : Int)
    (hlo : -(2 ^ 63) ≤ v) (hhi : v < 2 ^ 63) (hc : 0 ≤ c) :
    toNat64 (hash_update v c) = spec_step_arith (toNat64 v) c.toNat := by
  have key : toNat64 (pyXor (pyShiftLeft v 8) (pyShiftRight v 55))
      = ((toNat64 v <<< 8) % 2 ^ 64) ^^^ sar64 (toNat64 v) 55 := by
    cases v with
    | ofNat a =>
      have ha : a < 2 ^ 63 := by
        simp only [Int.ofNat_eq_coe] at hhi
        exact_mod_cast hhi
      have h1 : pyShiftLeft (Int.ofNat a) 8 = Int.ofNat (a * 2 ^ 8) := by
        unfold pyShiftLeft
        simp only [Int.ofNat_eq_coe]
        push_cast
        ring
      have h2 : pyShiftRight (Int.ofNat a) 55 = Int.ofNat (a >>> 55) := rfl
      have h3 : pyXor (Int.ofNat (a * 2 ^ 8)) (Int.ofNat (a >>> 55))
          = Int.ofNat ((a * 2 ^ 8) ^^^ (a >>> 55)) := rfl
      rw [h1, h2, h3, toNat64_ofNat, toNat64_ofNat]
      have h5 : a % 2 ^ 64 = a := Nat.mod_eq_of_lt (by omega)
      rw [h5]
      unfold sar64
      rw [if_pos ha, Nat.shiftLeft_eq, xor_mod_two_pow]
      congr 1
      rw [Nat.shiftRight_eq_div_pow]
      exact Nat.mod_eq_of_lt (by omega)
    | negSucc w =>
      have hw : w < 2 ^ 63 := by
        rw [Int.negSucc_eq] at hlo
        omega
      have h1 : pyShiftLeft (Int.negSucc w) 8 = Int.negSucc (w * 2 ^ 8 + 255) := by
        unfold pyShiftLeft
        rw [Int.negSucc_eq, Int.negSucc_eq]
        push_cast
        ring_nf
      have h2 : pyShiftRight (Int.negSucc w) 55 = Int.negSucc (w >>> 55) := rfl
      have h3 : pyXor (Int.negSucc (w * 2 ^ 8 + 255)) (Int.negSucc (w >>> 55))
          = Int.ofNat ((w * 2 ^ 8 + 255) ^^^ (w >>> 55)) := rfl
      rw [h1, h2, h3, toNat64_ofNat, toNat64_negSucc w hw]
      unfold sar64
      rw [if_neg (by omega)]
      have hsar : (2 ^ 64 - 1 - w) >>> 55 + (2 ^ 64 - 2 ^ (64 - 55))
          = 2 ^ 64 - (w >>> 55 + 1) := by
        rw [Nat.shiftRight_eq_div_pow, Nat.shiftRight_eq_div_pow]
        omega
      rw [hsar]
      exact key_neg w hw
  have step1 : toNat64 (hash_update v c)
      = (toNat64 (pyXor (pyShiftLeft v 8) (pyShiftRight v 55)) + c.toNat) % 2 ^ 64 := by
    unfold hash_update
    rw [toNat64_toInt64, toNat64_add_of_nonneg _ _ hc]
  rw [step1, key]
  rfl

/-! ## The claims -/

/-- The per-member fingerprint step ignores which non-primitive type a
member has: the type name text is mixed in only for primitive types. -/
theorem hash_member_update_nonprim_congr (v : Int) (m : Member)
    (t1 t2 : LcmTypename)
    (h1 : t1.lctypename ∉ PRIMITIVE_TYPES)
    (h2 : t2.lctypename ∉ PRIMITIVE_TYPES) :
    hash_member_update v { m with type := t1 }
      = hash_member_update v { m with type := t2 } := by
  simp [hash_member_update, h1, h2]

set_option maxRecDepth 40000 in
/-- C1: the fingerprint of a completed struct is a pure function of its
ordered member list only — the struct's own name and its constants
contribute nothing; two structs with different names and constants but
identical member lists hash alike; reordering members changes the hash;
renaming the struct type referenced by a compound-typed member leaves
containing fingerprints unchanged; renaming a primitive-typed member
changes the fingerprint. -/
theorem c1_fingerprint_pure_function_of_member_list :
    (∀ s1 s2 : Struct, s1.members = s2.members →
      hash_structure s1 = hash_structure s2)
    ∧ hash_structure (fixture_struct "A" [mem_n, mem_data] [])
        = hash_structure (fixture_struct "B" [mem_n, mem_data]
            [⟨"int8_t", "k", "5", none⟩])
    ∧ hash_structure (fixture_struct "S" [mem_data, mem_n] [])
        ≠ hash_structure (fixture_struct "S" [mem_n, mem_data] [])
    ∧ (∀ (pre post : List Member) (m : Member) (t1 t2 : LcmTypename)
        (s1 s2 : Struct),
        t1.lctypename ∉ PRIMITIVE_TYPES →
        t2.lctypename ∉ PRIMITIVE_TYPES →
        s1.members = pre ++ ({ m with type := t1 } :: post) →
        s2.members = pre ++ ({ m with type := t2 } :: post) →
        hash_structure s1 = hash_structure s2)
    ∧ hash_structure (fixture_struct "S" [mem_m] [])
        ≠ hash_structure (fixture_struct "S" [mem_n] []) := by
  refine ⟨?_, by decide, by decide, ?_, by decide⟩
  · intro s1 s2 h
    unfold hash_structure
    rw [h]
  · intro pre post m t1 t2 s1 s2 h1 h2 e1 e2
    unfold hash_structure
    rw [e1, e2, List.foldl_append, List.foldl_append, List.foldl_cons,
      List.foldl_cons, hash_member_update_nonprim_congr _ _ _ _ h1 h2]

/-- Witness for C1: the member-list parts applied at concrete structs —
same members under a different struct name hash alike, and renaming the
struct type referenced by the compound-typed member `child` leaves the
fingerprint unchanged. -/
theorem c1_fingerprint_pure_function_of_member_list_witness :
    hash_structure (fixture_struct "A" [mem_n, mem_data] [])
      = hash_structure (fixture_struct "Other" [mem_n, mem_data] [])
    ∧ hash_structure (fixture_struct "C" [mem_child, mem_n] [])
      = hash_structure (fixture_struct "C" [mem_child_renamed, mem_n] []) :=
  ⟨c1_fingerprint_pure_function_of_member_list.1 _ _ rfl,
   c1_fingerprint_pure_function_of_member_list.2.2.2.1 [] [mem_n] mem_child
     tn_pose tn_pose_renamed _ _ (by decide) (by decide) rfl rfl⟩

/-- C2 counterexample: at the negative state `v = -1` (with `c = 0`) the
implementation disagrees with the claim's formula read with the unsigned
(logical) right shift: `hash_update (-1) 0` has bit pattern `255`, the
logical-shift formula gives `2^64 - 257`. -/
theorem c2_logical_shift_counterexample :
    toNat64 (hash_update (-1) 0) ≠ spec_step_logical (toNat64 (-1)) 0 := by
  decide

/-- Witness for C2: the amended step equation instantiated at the
counterexample's input `v = -1`, `c = 0`. -/
theorem c2_hash_update_is_arithmetic_shift_step_witness :
    toNat64 (hash_update (-1) 0) = spec_step_arith (toNat64 (-1)) 0 :=
  c2_hash_update_is_arithmetic_shift_step (-1) 0 (by norm_num) (by norm_num)
    (by norm_num)

/-- C3 (code bug): after `one.lcm` records `a_t`, running `handle_file` on
`two.lcm` with the same declaration reports the duplicate and does *not*
append it (one struct remains, from `one.lcm`) — but the second
`handle_file` still returns `True`, so `main.py`'s `if not suc:
sys.exit(1)` never fires and the run exits successfully, against the
claim's non-zero exit status. -/
theorem c3_duplicate_struct_run_still_succeeds :
    dup_run = .ok (true, true, 1, ["one.lcm"]) := by
  rfl

/-- C4 (code bug): on the input `+` with no trailing newline, the first
`tokenize_next` returns the token `+` and leaves the tokenizer in
`plus_fix_state` — where the operator run's final `unget` pushed the stale
`current_char` back although the stream is exhausted — and `tokenize_next`
maps `plus_fix_state` to the same token and the *same state*, so repeated
calls return `+` forever and never reach the claimed end-of-stream
`none`. -/
theorem c4_operator_at_eof_never_reaches_end_of_stream :
    tokenize_next 20 (create "in.lcm" "+") = some (some 1, plus_fix_state)
    ∧ tokenize_next 20 plus_fix_state = some (some 1, plus_fix_state)
    ∧ plus_fix_state.token = "+".toList
    ∧ plus_fix_state.unget_char = some '+' :=
  ⟨rfl, rfl, rfl, rfl⟩

/-- C5 counterexample: tokenizing the line `//   x` (two slashes, three
spaces) does not give the comment text `  x` the claim states — the lexer
strips *every* leading space, not exactly one. -/
theorem c5_single_space_counterexample :
    (tokenize_next 100 (create "in.lcm" "//   x\n")).map
        (fun (_, t) => t.token)
      ≠ some "  x".toList := by
  decide

/-- C5 (amended): for a `//` line comment the lexer discards any further
leading `/` characters and then *all* leading spaces, and the comment
token's text is the remainder of the line excluding the newline: for the
source line `//   x` the comment token text is `x`. -/
theorem c5_line_comment_strips_all_leading_spaces :
    (tokenize_next 100 (create "in.lcm" "//   x\n")).map
        (fun (r, t) => (r, t.token, t.token_type))
      = some (some 1, "x".toList, TokenType.COMMENT) := by
  rfl

/-- C6 counterexample: tokenizing `/** header\n * body\n */` does not give
the comment text `header\nbody` the claim states — the newline appended at
the end of the `body` line survives the truncation done on the closing
line. -/
theorem c6_block_comment_counterexample :
    (tokenize_next 100 (create "in.lcm" "/** header\n * body\n */")).map
        (fun (_, t) => t.token)
      ≠ some "header\nbody".toList := by
  decide

/-- C6 (amended): the three-line block comment yields a single
comment-classified token whose text is `header` + newline + `body` +
newline — per line the leading whitespace, the run of leading asterisks and
a single space after them are stripped, and the comment ends at the `/`
after an asterisk run, but the newline ending the last content line remains
in the token text; the next call then reports end of stream. -/
theorem c6_block_comment_strips_lines_keeps_last_newline :
    (tokenize_next 100 (create "in.lcm" "/** header\n * body\n */")).map
        (fun (r, t) => (r, t.token, t.token_type))
      = some (some 12, "header\nbody\n".toList, TokenType.COMMENT)
    ∧ (match tokenize_next 100 (create "in.lcm" "/** header\n * body\n */") with
       | some (_, t) => (tokenize_next 100 t).map (fun (r, _) => r)
       | none => none)
      = some none :=
  ⟨rfl, rfl⟩

/-- C7: scanning the string literal source `"a\nb"` (quote, `a`, backslash,
`n`, `b`, quote) consumes the escaped character without appending it, so
the token text is exactly the four characters quote-`a`-`b`-quote; and a
string left unterminated at end of stream makes `tokenize_next` return the
end-of-stream `none` instead of a token. -/
theorem c7_string_escape_drops_escaped_character :
    (tokenize_next 100 (create "in.lcm" "\"a\\nb\"")).map
        (fun (r, t) => (r, t.token))
      = some (some 4, "\"ab\"".toList)
    ∧ (tokenize_next 100 (create "in.lcm" "\"ab")).map (fun (r, _) => r)
      = some none :=
  ⟨rfl, rfl⟩

/-- C8: array-dimension names resolve only against members already declared
in the struct being parsed — `struct S { int32_t n; double data[n]; }`
parses, recording `data` with the single `Var`-mode dimension `n`, while
the reversed declaration order fails with the unknown-size semantic
error. -/
theorem c8_array_dimension_resolves_backward_only :
    parse_observation (handle_file 200 "in.lcm"
        "struct S { int32_t n; double data[n]; }\n" create_lcmgen)
      = .ok (true, [("S",
          [("int32_t", "n", []),
           ("double", "data", [(DimensionMode.VAR, "n")])], [])])
    ∧ handle_file 200 "in.lcm"
        "struct S { double data[n]; int32_t n; }\n" create_lcmgen
      = .error (.semanticError
          "Unknown array size argument 'n'.\nSize arguments must be declared before the array.") :=
  ⟨rfl, rfl⟩

/-- C9: integer constants are range-checked against the declared type's
fixed-width two's-complement signed bounds: `const int8_t k = 200;` fails
as a semantic error, `const int8_t k = 100;` records the constant with
value text `100`, and the bounds table holds exactly the claimed
(min, max) pairs. -/
theorem c9_const_integer_range_check :
    handle_file 200 "in.lcm"
        "struct S { const int8_t k = 200; }\n" create_lcmgen
      = .error (.semanticError "Integer value out of bounds for int8_t.")
    ∧ parse_observation (handle_file 200 "in.lcm"
        "struct S { const int8_t k = 100; }\n" create_lcmgen)
      = .ok (true, [("S", [], [("int8_t", "k", "100")])])
    ∧ int_types_lookup "int8_t" = some (-128, 127)
    ∧ int_types_lookup "int16_t" = some (-32768, 32767)
    ∧ int_types_lookup "int32_t" = some (-2147483648, 2147483647)
    ∧ int_types_lookup "int64_t"
        = some (-9223372036854775808, 9223372036854775807) :=
  ⟨rfl, rfl, by decide, by decide, by decide, by decide⟩

/-- C10: the member under declaration is visible to the resolution of its
own array dimensions (it is appended to the member list before the
brackets are parsed): `int32_t n[n];` is accepted with the `Var`-mode
dimension `n` referring to the member itself, while a second `[n]` on the
same member is rejected because `n` is no longer zero-dimensional. -/
theorem c10_member_visible_to_own_dimensions :
    parse_observation (handle_file 200 "in.lcm"
        "struct S { int32_t n[n]; }\n" create_lcmgen)
      = .ok (true, [("S",
          [("int32_t", "n", [(DimensionMode.VAR, "n")])], [])])
    ∧ handle_file 200 "in.lcm"
        "struct S { int32_t n[n][n]; }\n" create_lcmgen
      = .error (.semanticError
          "Array dimension 'n' must be a scalar integer type.") :=
  ⟨rfl, rfl⟩

end LcmGen
